import Mathlib

/-!
Shallow embedding of the request-handling and persistence layer of
`src/server.js`: a telemetry-ingestion and state-query API for a
medication-dispensing box, backed by a MariaDB pool.

The three tables (`sensor_logs`, `compartment_status`,
`medication_schedule`) are modelled as append-only lists; an SQL
`INSERT` appends at the tail, `SELECT ... ORDER BY` is a filter
followed by the structural sort `sortBy` with the requested comparator, `LIMIT n`
is `List.take n`, and `NOW()` is an explicit store-clock argument.
Store failures are modelled by a fault oracle (`StoreFaults`): a flag
for `pool.getConnection` rejecting, and a predicate saying whether the
i-th query issued on the borrowed connection throws.  Each handler
returns the new database, its HTTP response, and whether it acquired
and released a pooled connection (the `finally \x7b if (conn)
conn.release() \x7d` discipline).
-/

namespace Server

/-- A JavaScript runtime value, sufficient to model the truthiness test
applied by `compartment.isOpen ? 1 : 0` in the ingestion handler. -/
inductive JsVal where
  | undefined
  | null
  | bool (b : Bool)
  | num (n : Int)
  | str (s : String)
  deriving DecidableEq

/-- JavaScript truthiness: `undefined`, `null`, `false`, `0` and the
empty string are falsy; everything else modelled here is truthy. -/
def truthy : JsVal → Bool
  | .undefined => false
  | .null => false
  | .bool b => b
  | .num n => n != 0
  | .str s => s != ""

/-- One row of the `sensor_logs` table (an EnvironmentalReading). -/
structure SensorRow where
  box_id : String
  temperature : Int
  humidity : Int
  timestamp : Int
  deriving DecidableEq

/-- One row of the `compartment_status` table.  `is_open` is the stored
tinyint (0 or 1). -/
structure CompartmentRow where
  box_id : String
  compartment_id : Int
  is_open : Int
  timestamp : Int
  deriving DecidableEq

/-- One row of the `medication_schedule` table.  `is_taken` is the
stored tinyint (0 or 1); `taken_time` is nullable. -/
structure ScheduleRow where
  id : Int
  box_id : String
  scheduled_time : Int
  is_taken : Int
  taken_time : Option Int
  deriving DecidableEq

/-- The store: the three tables touched by the API layer. -/
structure DB where
  sensor_logs : List SensorRow
  compartment_status : List CompartmentRow
  medication_schedule : List ScheduleRow
  deriving DecidableEq

/-- One element of the request's `compartmentStatus` array:
`\x7bid, isOpen\x7d`, where `isOpen` is an arbitrary JS value. -/
structure CompEntry where
  id : Int
  isOpen : JsVal
  deriving DecidableEq

/-- The `compartmentStatus` field of an ingestion request body: absent
(`undefined`), present but not an array, or a genuine array.  The code
guards the loop with `compartmentStatus && Array.isArray(compartmentStatus)`,
which holds exactly for the `array` case (an array, even empty, is
truthy and passes `Array.isArray`; a non-array never passes it). -/
inductive CompField where
  | absent
  | notArray (v : JsVal)
  | array (cs : List CompEntry)
  deriving DecidableEq

/-- The body of `POST /api/sensor-data`. -/
structure IngestReq where
  boxId : String
  temperature : Int
  humidity : Int
  compartmentStatus : CompField
  deriving DecidableEq

/-- Fault oracle for one handler invocation: does `pool.getConnection`
reject, and does the i-th query on the borrowed connection throw. -/
structure StoreFaults where
  connFail : Bool
  queryFail : Nat → Bool

/-- The fault-free oracle: the pool and every query succeed. -/
def noFaults : StoreFaults := ⟨false, fun _ => false⟩

/-- Result of one handler invocation: the database afterwards, the
response, and whether a pooled connection was acquired and released. -/
structure Outcome (ρ : Type) where
  db : DB
  resp : ρ
  acquired : Bool
  released : Bool

/-- Response of `POST /api/sensor-data` and
`POST /api/medication-schedule/complete`: `\x7bsuccess:true\x7d` or the
uniform 500 `\x7bsuccess:false, error\x7d`. -/
inductive SimpleResp where
  | ok
  | err
  deriving DecidableEq

/-- Response of `GET /api/sensor-data/latest/:boxId`:
`sensor` is `sensorData[0] || null`, `compartments` the second query. -/
inductive LatestResp where
  | ok (sensor : Option SensorRow) (compartments : List CompartmentRow)
  | err
  deriving DecidableEq

/-- The `sensor` field of a successful latest-state response. -/
def LatestResp.sensorOf : LatestResp → Option (Option SensorRow)
  | .ok s _ => some s
  | .err => none

/-- The `compartments` field of a successful latest-state response. -/
def LatestResp.compartmentsOf : LatestResp → Option (List CompartmentRow)
  | .ok _ c => some c
  | .err => none

/-- Response of `GET /api/sensor-data/history/:boxId`. -/
inductive HistoryResp where
  | ok (data : List SensorRow)
  | err
  deriving DecidableEq

/-- Response of the two schedule listing routes. -/
inductive ScheduleResp where
  | ok (data : List ScheduleRow)
  | err
  deriving DecidableEq

/-- `ORDER BY timestamp DESC` comparator on sensor rows. -/
def tsDescSensor (a b : SensorRow) : Bool := decide (b.timestamp ≤ a.timestamp)

/-- `ORDER BY timestamp DESC` comparator on compartment rows. -/
def tsDescComp (a b : CompartmentRow) : Bool := decide (b.timestamp ≤ a.timestamp)

/-- `ORDER BY scheduled_time ASC` comparator on schedule rows. -/
def schedAsc (a b : ScheduleRow) : Bool := decide (a.scheduled_time ≤ b.scheduled_time)

/-- `ORDER BY scheduled_time DESC` comparator on schedule rows. -/
def schedDesc (a b : ScheduleRow) : Bool := decide (b.scheduled_time ≤ a.scheduled_time)

/-- Seconds per hour; timestamps are store-clock seconds. -/
def hour : Int := 3600

/-- Insert `a` into `l` before the first element `b` with `le a b`:
the inductive step of the sort modelling `ORDER BY`. -/
def insertBy {α : Type} (le : α → α → Bool) (a : α) : List α → List α
  | [] => [a]
  | b :: l => if le a b then a :: b :: l else b :: insertBy le a l

/-- A stable structural sort modelling the store's `ORDER BY`: the
result is a permutation of the input, sorted under `le` whenever `le`
is transitive and total.  (The relational engine promises order, not a
particular tie-break; this sort is one faithful choice and, unlike a
well-founded-recursion sort, evaluates inside the kernel.) -/
def sortBy {α : Type} (le : α → α → Bool) : List α → List α
  | [] => []
  | a :: l => insertBy le a (sortBy le l)

/-- The `compartment_status` row built by one iteration of the
ingestion loop: `(box_id, compartment_id, is_open, timestamp) VALUES
(?, ?, ?, NOW())` with `compartment.isOpen ? 1 : 0`. -/
def compRow (boxId : String) (now : Int) (c : CompEntry) : CompartmentRow :=
  { box_id := boxId, compartment_id := c.id,
    is_open := if truthy c.isOpen then 1 else 0, timestamp := now }

/-- The `for (const compartment of compartmentStatus)` loop: one
`INSERT` per element, sequentially, on the same connection (query
indices `idx, idx+1, ...` of the fault oracle).  Returns the rows
actually inserted, in insertion order, and whether the loop ran to
completion; a throwing `INSERT` inserts nothing and aborts the rest. -/
def insertCompartments (boxId : String) (now : Int) (qf : Nat → Bool) :
    Nat → List CompEntry → List CompartmentRow × Bool
  | _, [] => ([], true)
  | idx, c :: cs =>
    if qf idx then ([], false)
    else
      let rest := insertCompartments boxId now qf (idx + 1) cs
      (compRow boxId now c :: rest.1, rest.2)

/-- `POST /api/sensor-data` (the Ingestion Handler, server.js:36-68):
acquire a connection, insert one `sensor_logs` row, then one
`compartment_status` row per element when `compartmentStatus` is a
genuine array; any throw is caught and answered with a 500, and the
`finally` block releases the connection exactly when one was acquired. -/
def sensorDataHandler (db : DB) (now : Int) (req : IngestReq) (f : StoreFaults) :
    Outcome SimpleResp :=
  if f.connFail then
    { db := db, resp := .err, acquired := false, released := false }
  else if f.queryFail 0 then
    { db := db, resp := .err, acquired := true, released := true }
  else
    let db1 : DB := { db with sensor_logs := db.sensor_logs ++
      [{ box_id := req.boxId, temperature := req.temperature,
         humidity := req.humidity, timestamp := now }] }
    match req.compartmentStatus with
    | .array cs =>
      let r := insertCompartments req.boxId now f.queryFail 1 cs
      { db := { db1 with compartment_status := db1.compartment_status ++ r.1 },
        resp := if r.2 then .ok else .err, acquired := true, released := true }
    | _ =>
      { db := db1, resp := .ok, acquired := true, released := true }

/-- `GET /api/sensor-data/latest/:boxId` (the State Query Handler,
server.js:71-98): one query `ORDER BY timestamp DESC LIMIT 1` on
`sensor_logs`, one `ORDER BY timestamp DESC LIMIT 4` on
`compartment_status`; `sensor` is the first row or null. -/
def latestHandler (db : DB) (boxId : String) (f : StoreFaults) :
    Outcome LatestResp :=
  if f.connFail then
    { db := db, resp := .err, acquired := false, released := false }
  else if f.queryFail 0 then
    { db := db, resp := .err, acquired := true, released := true }
  else if f.queryFail 1 then
    { db := db, resp := .err, acquired := true, released := true }
  else
    let sensorData :=
      (sortBy tsDescSensor
        (db.sensor_logs.filter (fun r => r.box_id == boxId))).take 1
    let compartmentData :=
      (sortBy tsDescComp
        (db.compartment_status.filter (fun r => r.box_id == boxId))).take 4
    { db := db, resp := .ok sensorData.head? compartmentData,
      acquired := true, released := true }

/-- `GET /api/sensor-data/history/:boxId` (the History Query Handler,
server.js:101-121): `WHERE box_id = ? AND timestamp >
DATE_SUB(NOW(), INTERVAL 24 HOUR) ORDER BY timestamp DESC`. -/
def historyHandler (db : DB) (boxId : String) (now : Int) (f : StoreFaults) :
    Outcome HistoryResp :=
  if f.connFail then
    { db := db, resp := .err, acquired := false, released := false }
  else if f.queryFail 0 then
    { db := db, resp := .err, acquired := true, released := true }
  else
    let history :=
      sortBy tsDescSensor
        (db.sensor_logs.filter
          (fun r => r.box_id == boxId && decide (now - 24 * hour < r.timestamp)))
    { db := db, resp := .ok history, acquired := true, released := true }

/-- `GET /api/medication-schedule/:boxId` (the Schedule Query Handler,
server.js:124-144): `WHERE box_id = ? AND is_taken = 0 ORDER BY
scheduled_time ASC`. -/
def scheduleHandler (db : DB) (boxId : String) (f : StoreFaults) :
    Outcome ScheduleResp :=
  if f.connFail then
    { db := db, resp := .err, acquired := false, released := false }
  else if f.queryFail 0 then
    { db := db, resp := .err, acquired := true, released := true }
  else
    let schedules :=
      sortBy schedAsc
        (db.medication_schedule.filter
          (fun r => r.box_id == boxId && r.is_taken == 0))
    { db := db, resp := .ok schedules, acquired := true, released := true }

/-- Effect of `UPDATE medication_schedule SET is_taken = 1, taken_time
= NOW() WHERE id = ?` on one row. -/
def completeRow (scheduleId : Int) (now : Int) (r : ScheduleRow) : ScheduleRow :=
  if r.id = scheduleId then { r with is_taken := 1, taken_time := some now } else r

/-- `POST /api/medication-schedule/complete` (the Schedule Completion
Handler, server.js:147-165): one unconditional `UPDATE` by id, then a
success response; no existence or prior-state check. -/
def completeHandler (db : DB) (scheduleId : Int) (now : Int) (f : StoreFaults) :
    Outcome SimpleResp :=
  if f.connFail then
    { db := db, resp := .err, acquired := false, released := false }
  else if f.queryFail 0 then
    { db := db, resp := .err, acquired := true, released := true }
  else
    { db := { db with medication_schedule :=
        db.medication_schedule.map (completeRow scheduleId now) },
      resp := .ok, acquired := true, released := true }

/-- `GET /api/medication-history/:boxId` (the Schedule History Handler,
server.js:167-188): `WHERE box_id = ? ORDER BY scheduled_time DESC`. -/
def medicationHistoryHandler (db : DB) (boxId : String) (f : StoreFaults) :
    Outcome ScheduleResp :=
  if f.connFail then
    { db := db, resp := .err, acquired := false, released := false }
  else if f.queryFail 0 then
    { db := db, resp := .err, acquired := true, released := true }
  else
    let history :=
      sortBy schedDesc
        (db.medication_schedule.filter (fun r => r.box_id == boxId))
    { db := db, resp := .ok history, acquired := true, released := true }

/-- Concrete store for the C3 witness: one untaken schedule row. -/
def dbC3 : DB := ⟨[], [], [⟨5, "box1", 10, 0, none⟩]⟩

/-- Concrete store for the C2 witness: three box1 readings with
timestamps 1 < 2 < 3 and one reading of another box. -/
def dbC2 : DB :=
  ⟨[⟨"box1", 20, 30, 1⟩, ⟨"box1", 21, 31, 2⟩, ⟨"box2", 5, 5, 9⟩,
    ⟨"box1", 22, 40, 3⟩], [⟨"box1", 1, 1, 1⟩], []⟩

/-- Concrete store for the C6 witness: at query time 100000, one box1
reading 25 hours old and one 1 hour old. -/
def dbC6 : DB :=
  ⟨[⟨"box1", 20, 30, 10000⟩, ⟨"box1", 21, 31, 96400⟩], [], []⟩

/-- Concrete store for the C7 witness: two untaken rows (due 50 and 30)
and one taken row for box1. -/
def dbC7 : DB :=
  ⟨[], [], [⟨1, "box1", 50, 0, none⟩, ⟨2, "box1", 40, 1, some 45⟩,
    ⟨3, "box1", 30, 0, none⟩]⟩

/-- Concrete store for C10: compartment 2 reported once (oldest row),
then compartment 1 reported four times. -/
def dbC10 : DB :=
  ⟨[], [⟨"box1", 2, 1, 10⟩, ⟨"box1", 1, 0, 20⟩, ⟨"box1", 1, 1, 30⟩,
    ⟨"box1", 1, 0, 40⟩, ⟨"box1", 1, 1, 50⟩], []⟩

/-- Inserting an element is a permutation of consing it. -/
theorem insertBy_perm {α : Type} (le : α → α → Bool) (a : α) :
    ∀ l : List α, (insertBy le a l).Perm (a :: l)
  | [] => List.Perm.refl _
  | b :: l => by
    simp only [insertBy]
    by_cases h : le a b
    · rw [if_pos h]
    · rw [if_neg h]
      exact ((insertBy_perm le a l).cons b).trans (List.Perm.swap a b l)

/-- The sort is a permutation of its input. -/
theorem sortBy_perm {α : Type} (le : α → α → Bool) :
    ∀ l : List α, (sortBy le l).Perm l
  | [] => List.Perm.refl _
  | a :: l => by
    simp only [sortBy]
    exact (insertBy_perm le a (sortBy le l)).trans ((sortBy_perm le l).cons a)

theorem mem_sortBy {α : Type} {le : α → α → Bool} {a : α} {l : List α} :
    a ∈ sortBy le l ↔ a ∈ l :=
  (sortBy_perm le l).mem_iff

/-- Inserting into a sorted list keeps it sorted, for a transitive and
total comparator. -/
theorem insertBy_pairwise {α : Type} (le : α → α → Bool)
    (htrans : ∀ a b c, le a b → le b c → le a c)
    (htotal : ∀ a b, le a b || le b a) (a : α) :
    ∀ l : List α, l.Pairwise (fun x y => le x y = true) →
      (insertBy le a l).Pairwise (fun x y => le x y = true)
  | [], _ => by simp [insertBy]
  | b :: l, hp => by
    obtain ⟨hbl, hpl⟩ := List.pairwise_cons.mp hp
    simp only [insertBy]
    by_cases h : le a b
    · rw [if_pos h]
      refine List.pairwise_cons.mpr ⟨?_, hp⟩
      intro x hx
      rcases List.mem_cons.mp hx with rfl | hxl
      · exact h
      · exact htrans a b x h (hbl x hxl)
    · rw [if_neg h]
      have hba : le b a := by
        rcases Bool.or_eq_true_iff.mp (htotal a b) with hab | hba
        · exact absurd hab h
        · exact hba
      refine List.pairwise_cons.mpr
        ⟨?_, insertBy_pairwise le htrans htotal a l hpl⟩
      intro x hx
      rcases List.mem_cons.mp ((insertBy_perm le a l).mem_iff.mp hx)
        with rfl | hxl
      · exact hba
      · exact hbl x hxl

/-- The sort is sorted, for a transitive and total comparator. -/
theorem sortBy_pairwise {α : Type} (le : α → α → Bool)
    (htrans : ∀ a b c, le a b → le b c → le a c)
    (htotal : ∀ a b, le a b || le b a) :
    ∀ l : List α, (sortBy le l).Pairwise (fun x y => le x y = true)
  | [] => by simp [sortBy]
  | a :: l => by
    simp only [sortBy]
    exact insertBy_pairwise le htrans htotal a _
      (sortBy_pairwise le htrans htotal l)

/-- If the compartment loop ran to completion, it inserted exactly one
row per input element, in input order. -/
theorem insertCompartments_ok (boxId : String) (now : Int) (qf : Nat → Bool) :
    ∀ (idx : Nat) (cs : List CompEntry),
      (insertCompartments boxId now qf idx cs).2 = true →
      (insertCompartments boxId now qf idx cs).1 = cs.map (compRow boxId now) := by
  intro idx cs
  induction cs generalizing idx with
  | nil => intro _; rfl
  | cons c cs ih =>
    intro h
    by_cases hq : qf idx
    · simp [insertCompartments, hq] at h
    · simp only [insertCompartments, hq, Bool.false_eq_true, if_false,
        List.map_cons] at h ⊢
      rw [ih (idx + 1) h]

/-- Claim C1: a successful ingestion appends exactly one sensor row
(built from the request and the store clock) and exactly one
compartment row per element of the supplied sequence, in input order
(zero rows when the sequence is absent or not a genuine array);
the inserts are issued sequentially on the single borrowed connection,
which the sequential embedding makes explicit. -/
theorem C1_ingestion_row_counts (db : DB) (now : Int) (req : IngestReq)
    (f : StoreFaults) (hok : (sensorDataHandler db now req f).resp = .ok) :
    (sensorDataHandler db now req f).db.sensor_logs
      = db.sensor_logs
        ++ [{ box_id := req.boxId, temperature := req.temperature,
              humidity := req.humidity, timestamp := now }]
    ∧ (sensorDataHandler db now req f).db.compartment_status
      = db.compartment_status
        ++ (match req.compartmentStatus with
            | .array cs => cs.map (compRow req.boxId now)
            | _ => []) := by
  by_cases hc : f.connFail
  · simp [sensorDataHandler, hc] at hok
  by_cases h0 : f.queryFail 0
  · simp [sensorDataHandler, hc, h0] at hok
  cases hcs : req.compartmentStatus with
  | array cs =>
    have h2 : (insertCompartments req.boxId now f.queryFail 1 cs).2 = true := by
      by_contra hF
      simp [sensorDataHandler, hc, h0, hcs, hF] at hok
    simp [sensorDataHandler, hc, h0, hcs,
      insertCompartments_ok req.boxId now f.queryFail 1 cs h2]
  | absent => simp [sensorDataHandler, hc, h0, hcs]
  | notArray v => simp [sensorDataHandler, hc, h0, hcs]

/-- Witness for C1 at a concrete request with a two-element sequence. -/
theorem C1_ingestion_row_counts_witness :
    (sensorDataHandler ⟨[], [], []⟩ 100
        ⟨"box1", 22, 40, .array [⟨1, .bool true⟩, ⟨2, .bool false⟩]⟩
        noFaults).db.sensor_logs = [⟨"box1", 22, 40, 100⟩]
    ∧ (sensorDataHandler ⟨[], [], []⟩ 100
        ⟨"box1", 22, 40, .array [⟨1, .bool true⟩, ⟨2, .bool false⟩]⟩
        noFaults).db.compartment_status
      = [⟨"box1", 1, 1, 100⟩, ⟨"box1", 2, 0, 100⟩] :=
  C1_ingestion_row_counts ⟨[], [], []⟩ 100
    ⟨"box1", 22, 40, .array [⟨1, .bool true⟩, ⟨2, .bool false⟩]⟩ noFaults rfl

/-- Claim C4: every handler releases its pooled connection exactly when
it acquired one, on every path (success, query failure at any index),
and acquires one exactly when `pool.getConnection` succeeds — so a
handler that never acquired a connection releases nothing. -/
theorem C4_release_on_every_path (db : DB) (now : Int) (req : IngestReq)
    (boxId : String) (sid : Int) (f : StoreFaults) :
    ((sensorDataHandler db now req f).released
        = (sensorDataHandler db now req f).acquired
      ∧ (sensorDataHandler db now req f).acquired = !f.connFail)
    ∧ ((latestHandler db boxId f).released = (latestHandler db boxId f).acquired
      ∧ (latestHandler db boxId f).acquired = !f.connFail)
    ∧ ((historyHandler db boxId now f).released
        = (historyHandler db boxId now f).acquired
      ∧ (historyHandler db boxId now f).acquired = !f.connFail)
    ∧ ((scheduleHandler db boxId f).released
        = (scheduleHandler db boxId f).acquired
      ∧ (scheduleHandler db boxId f).acquired = !f.connFail)
    ∧ ((completeHandler db sid now f).released
        = (completeHandler db sid now f).acquired
      ∧ (completeHandler db sid now f).acquired = !f.connFail)
    ∧ ((medicationHistoryHandler db boxId f).released
        = (medicationHistoryHandler db boxId f).acquired
      ∧ (medicationHistoryHandler db boxId f).acquired = !f.connFail) := by
  obtain ⟨bx, tp, hm, cf⟩ := req
  cases cf <;>
    by_cases hc : f.connFail <;> by_cases h0 : f.queryFail 0 <;>
    by_cases h1 : f.queryFail 1 <;>
    simp_all [sensorDataHandler, latestHandler, historyHandler, scheduleHandler,
      completeHandler, medicationHistoryHandler]

/-- Claim C8: when no schedule row matches the given id, the
Completion Handler still issues the write, changes nothing, and
reports success. -/
theorem C8_complete_zero_matches (db : DB) (sid : Int) (now : Int)
    (h : ∀ r ∈ db.medication_schedule, r.id ≠ sid) :
    (completeHandler db sid now noFaults).resp = .ok
    ∧ (completeHandler db sid now noFaults).db = db := by
  refine ⟨rfl, ?_⟩
  have hmap : db.medication_schedule.map (completeRow sid now)
      = db.medication_schedule := by
    have h2 : db.medication_schedule.map (completeRow sid now)
        = db.medication_schedule.map id :=
      List.map_congr_left (fun r hr => by simp [completeRow, h r hr])
    simpa using h2
  simp [completeHandler, noFaults, hmap]

/-- Witness for C8: completing an id matching none of the rows. -/
theorem C8_complete_zero_matches_witness :
    (completeHandler ⟨[], [], [⟨3, "box1", 50, 0, none⟩]⟩ 7 90 noFaults).resp
        = .ok
    ∧ (completeHandler ⟨[], [], [⟨3, "box1", 50, 0, none⟩]⟩ 7 90 noFaults).db
        = ⟨[], [], [⟨3, "box1", 50, 0, none⟩]⟩ :=
  C8_complete_zero_matches ⟨[], [], [⟨3, "box1", 50, 0, none⟩]⟩ 7 90 (by decide)

/-- Claim C9: the stored `is_open` value is decided by JavaScript
truthiness of the reported `isOpen`, not by its type: any truthy value
persists as 1 and any falsy value (false, 0, null, undefined, empty
string) persists as 0. -/
theorem C9_is_open_truthiness (db : DB) (now : Int) (boxId : String)
    (temp hum : Int) (i : Int) (v : JsVal) :
    (sensorDataHandler db now ⟨boxId, temp, hum, .array [⟨i, v⟩]⟩
        noFaults).db.compartment_status
      = db.compartment_status
        ++ [{ box_id := boxId, compartment_id := i,
              is_open := if truthy v then 1 else 0, timestamp := now }]
    ∧ truthy (.str "open") = true ∧ truthy (.num 5) = true
    ∧ truthy (.bool true) = true
    ∧ truthy (.bool false) = false ∧ truthy (.num 0) = false
    ∧ truthy (.str "") = false ∧ truthy .null = false
    ∧ truthy .undefined = false := by
  refine ⟨?_, by decide, by decide, rfl, rfl, by decide, by decide, rfl, rfl⟩
  simp [sensorDataHandler, noFaults, insertCompartments, compRow]

/-- Every row of the updated schedule table that matches the id has
`is_taken = 1`. -/
theorem completeRow_mem_taken (sid t : Int) (l : List ScheduleRow) :
    ∀ r ∈ l.map (completeRow sid t), r.id = sid → r.is_taken = 1 := by
  intro r hr hid
  obtain ⟨s, hs, rfl⟩ := List.mem_map.mp hr
  by_cases h : s.id = sid
  · simp [completeRow, h]
  · simp only [completeRow, if_neg h] at hid
    exact absurd hid h

/-- Re-applying the completion update to an already-updated row only
overwrites `taken_time`. -/
theorem completeRow_twice (sid t1 t2 : Int) (s : ScheduleRow) :
    completeRow sid t2 (completeRow sid t1 s)
      = (fun r => if r.id = sid then { r with taken_time := some t2 } else r)
          (completeRow sid t1 s) := by
  by_cases h : s.id = sid <;> simp [completeRow, h]

/-- Claim C3: the Completion Handler is idempotent — two invocations
with the same scheduleId both succeed, both leave every matching row
with `is_taken = 1`, and the second application changes the table only
by overwriting `taken_time` of the matching rows with the new store
time. -/
theorem C3_complete_idempotent (db : DB) (sid : Int) (t1 t2 : Int) :
    (completeHandler db sid t1 noFaults).resp = .ok
    ∧ (completeHandler (completeHandler db sid t1 noFaults).db sid t2
        noFaults).resp = .ok
    ∧ (∀ r ∈ (completeHandler db sid t1 noFaults).db.medication_schedule,
        r.id = sid → r.is_taken = 1)
    ∧ (∀ r ∈ (completeHandler (completeHandler db sid t1 noFaults).db sid t2
        noFaults).db.medication_schedule, r.id = sid → r.is_taken = 1)
    ∧ (completeHandler (completeHandler db sid t1 noFaults).db sid t2
        noFaults).db.medication_schedule
      = (completeHandler db sid t1 noFaults).db.medication_schedule.map
          (fun r => if r.id = sid then { r with taken_time := some t2 }
                    else r) := by
  refine ⟨rfl, rfl, ?_, ?_, ?_⟩
  · simpa [completeHandler, noFaults] using
      completeRow_mem_taken sid t1 db.medication_schedule
  · simpa [completeHandler, noFaults, List.map_map] using
      completeRow_mem_taken sid t2
        (db.medication_schedule.map (completeRow sid t1))
  · show (db.medication_schedule.map (completeRow sid t1)).map
        (completeRow sid t2) = _
    exact List.map_congr_left (fun r hr => by
      obtain ⟨s, hs, rfl⟩ := List.mem_map.mp hr
      exact completeRow_twice sid t1 t2 s)

/-- If the j-th compartment insert is the first one to throw, the loop
inserted exactly the first j rows and aborted. -/
theorem insertCompartments_firstFail (boxId : String) (now : Int)
    (qf : Nat → Bool) :
    ∀ (idx : Nat) (cs : List CompEntry) (j : Nat), j < cs.length →
      qf (idx + j) = true → (∀ i < j, qf (idx + i) = false) →
      insertCompartments boxId now qf idx cs
        = ((cs.take j).map (compRow boxId now), false) := by
  intro idx cs
  induction cs generalizing idx with
  | nil => intro j hj _ _; simp at hj
  | cons c cs ih =>
    intro j hj hqj hbefore
    cases j with
    | zero =>
      simp only [Nat.add_zero] at hqj
      simp [insertCompartments, hqj]
    | succ j' =>
      have h0 : qf idx = false := by
        simpa using hbefore 0 (Nat.succ_pos _)
      have harith : idx + (j' + 1) = (idx + 1) + j' := by omega
      rw [harith] at hqj
      have hb' : ∀ i < j', qf ((idx + 1) + i) = false := by
        intro i hi
        have h2 : idx + (i + 1) = (idx + 1) + i := by omega
        have := hbefore (i + 1) (by omega)
        rwa [h2] at this
      have hrec := ih (idx + 1) j'
        (by simpa using Nat.lt_of_succ_lt_succ hj) hqj hb'
      simp [insertCompartments, h0, hrec, List.take_succ_cons]

/-- Claim C5: when the insert at position j of the compartment sequence
is the first store failure, the handler aborts the remaining inserts
and answers with the generic failure, while the sensor row and the
first j compartment rows remain persisted — no rollback. -/
theorem C5_partial_failure (db : DB) (now : Int) (boxId : String)
    (temp hum : Int) (cs : List CompEntry) (qf : Nat → Bool) (j : Nat)
    (h0 : qf 0 = false) (hj : j < cs.length) (hfail : qf (1 + j) = true)
    (hbefore : ∀ i < j, qf (1 + i) = false) :
    (sensorDataHandler db now ⟨boxId, temp, hum, .array cs⟩ ⟨false, qf⟩).resp
        = .err
    ∧ (sensorDataHandler db now ⟨boxId, temp, hum, .array cs⟩
        ⟨false, qf⟩).db.sensor_logs
      = db.sensor_logs ++ [⟨boxId, temp, hum, now⟩]
    ∧ (sensorDataHandler db now ⟨boxId, temp, hum, .array cs⟩
        ⟨false, qf⟩).db.compartment_status
      = db.compartment_status ++ (cs.take j).map (compRow boxId now) := by
  have hins := insertCompartments_firstFail boxId now qf 1 cs j hj hfail hbefore
  simp [sensorDataHandler, h0, hins]

/-- Witness for C5: a three-element sequence whose second insert
throws; the reading and the first compartment row persist. -/
theorem C5_partial_failure_witness :
    (sensorDataHandler ⟨[], [], []⟩ 100
        ⟨"box1", 22, 40, .array [⟨1, .bool true⟩, ⟨2, .bool false⟩,
          ⟨3, .bool true⟩]⟩ ⟨false, fun i => decide (i = 2)⟩).resp = .err
    ∧ (sensorDataHandler ⟨[], [], []⟩ 100
        ⟨"box1", 22, 40, .array [⟨1, .bool true⟩, ⟨2, .bool false⟩,
          ⟨3, .bool true⟩]⟩ ⟨false, fun i => decide (i = 2)⟩).db.sensor_logs
      = [⟨"box1", 22, 40, 100⟩]
    ∧ (sensorDataHandler ⟨[], [], []⟩ 100
        ⟨"box1", 22, 40, .array [⟨1, .bool true⟩, ⟨2, .bool false⟩,
          ⟨3, .bool true⟩]⟩
        ⟨false, fun i => decide (i = 2)⟩).db.compartment_status
      = [⟨"box1", 1, 1, 100⟩] :=
  C5_partial_failure ⟨[], [], []⟩ 100 "box1" 22 40
    [⟨1, .bool true⟩, ⟨2, .bool false⟩, ⟨3, .bool true⟩]
    (fun i => decide (i = 2)) 1 (by decide) (by decide) (by decide)
    (by decide)

theorem tsDescSensor_trans : ∀ a b c : SensorRow,
    tsDescSensor a b → tsDescSensor b c → tsDescSensor a c := by
  intro a b c hab hbc
  simp only [tsDescSensor, decide_eq_true_eq] at hab hbc ⊢
  omega

theorem tsDescSensor_total : ∀ a b : SensorRow,
    tsDescSensor a b || tsDescSensor b a := by
  intro a b
  simp only [tsDescSensor, Bool.or_eq_true, decide_eq_true_eq]
  omega

theorem tsDescComp_trans : ∀ a b c : CompartmentRow,
    tsDescComp a b → tsDescComp b c → tsDescComp a c := by
  intro a b c hab hbc
  simp only [tsDescComp, decide_eq_true_eq] at hab hbc ⊢
  omega

theorem tsDescComp_total : ∀ a b : CompartmentRow,
    tsDescComp a b || tsDescComp b a := by
  intro a b
  simp only [tsDescComp, Bool.or_eq_true, decide_eq_true_eq]
  omega

theorem schedAsc_trans : ∀ a b c : ScheduleRow,
    schedAsc a b → schedAsc b c → schedAsc a c := by
  intro a b c hab hbc
  simp only [schedAsc, decide_eq_true_eq] at hab hbc ⊢
  omega

theorem schedAsc_total : ∀ a b : ScheduleRow,
    schedAsc a b || schedAsc b a := by
  intro a b
  simp only [schedAsc, Bool.or_eq_true, decide_eq_true_eq]
  omega

/-- The `LIMIT n` prefix of the descending-sorted compartment rows: its
length is `min n (total)`, it is sorted most-recent-first, and together
with the dropped suffix it is a permutation of the filtered rows, every
dropped row being no newer than every kept one. -/
theorem sortBy_take_comp (l : List CompartmentRow) (n : Nat) :
    ((sortBy tsDescComp l).take n).length = min n l.length
    ∧ ((sortBy tsDescComp l).take n).Pairwise
        (fun a b => b.timestamp ≤ a.timestamp)
    ∧ (((sortBy tsDescComp l).take n)
        ++ ((sortBy tsDescComp l).drop n)).Perm l
    ∧ ∀ a ∈ (sortBy tsDescComp l).take n,
        ∀ b ∈ (sortBy tsDescComp l).drop n, b.timestamp ≤ a.timestamp := by
  have hperm := sortBy_perm tsDescComp l
  have hsorted := sortBy_pairwise tsDescComp tsDescComp_trans tsDescComp_total l
  have hsplit := List.take_append_drop n (sortBy tsDescComp l)
  refine ⟨by simp [List.length_take, hperm.length_eq], ?_, ?_, ?_⟩
  · exact (List.Pairwise.sublist (List.take_sublist n _) hsorted).imp
      (fun h => by simpa [tsDescComp] using h)
  · exact (List.Perm.of_eq hsplit).trans hperm
  · have hp := hsorted
    rw [← hsplit] at hp
    intro a ha b hb
    have := (List.pairwise_append.mp hp).2.2 a ha b hb
    simpa [tsDescComp] using this

/-- Claim C2: with a healthy store, the State Query Handler answers
with a null sensor when the box has no readings; with the unique
newest reading when one exists (so after readings at t1 < … < tk it
answers with the tk reading); and with compartment rows that are the
at-most-four most recent `compartment_status` rows of the box, ordered
most-recent-first. -/
theorem C2_state_query (db : DB) (boxId : String) :
    (db.sensor_logs.filter (fun s => s.box_id == boxId) = [] →
        ((latestHandler db boxId noFaults).resp).sensorOf = some none)
    ∧ (∀ r ∈ db.sensor_logs, r.box_id = boxId →
        (∀ s ∈ db.sensor_logs, s.box_id = boxId → s ≠ r →
          s.timestamp < r.timestamp) →
        ((latestHandler db boxId noFaults).resp).sensorOf = some (some r))
    ∧ (∀ comps,
        ((latestHandler db boxId noFaults).resp).compartmentsOf = some comps →
        comps.length
            = min 4 (db.compartment_status.filter
                (fun c => c.box_id == boxId)).length
          ∧ comps.Pairwise (fun a b => b.timestamp ≤ a.timestamp)
          ∧ ∃ rest,
              (comps ++ rest).Perm
                (db.compartment_status.filter (fun c => c.box_id == boxId))
              ∧ ∀ a ∈ comps, ∀ b ∈ rest, b.timestamp ≤ a.timestamp) := by
  refine ⟨?_, ?_, ?_⟩
  · intro hnil
    simp [latestHandler, noFaults, LatestResp.sensorOf, hnil, sortBy]
  · intro r hr hbox hmax
    have hrl : r ∈ db.sensor_logs.filter (fun s => s.box_id == boxId) :=
      List.mem_filter.mpr ⟨hr, by simp [hbox]⟩
    have hperm := sortBy_perm tsDescSensor
      (db.sensor_logs.filter (fun s => s.box_id == boxId))
    have hsorted := sortBy_pairwise tsDescSensor tsDescSensor_trans
      tsDescSensor_total (db.sensor_logs.filter (fun s => s.box_id == boxId))
    cases hms : sortBy tsDescSensor
        (db.sensor_logs.filter (fun s => s.box_id == boxId)) with
    | nil =>
      rw [hms] at hperm
      exact absurd (hperm.symm.subset hrl) (by simp)
    | cons hd tl =>
      rw [hms] at hperm hsorted
      have hhd_mem := List.mem_filter.mp
        (hperm.subset (List.mem_cons_self hd tl))
      have hhd : hd = r := by
        by_contra hne
        have hlt := hmax hd hhd_mem.1 (by simpa using hhd_mem.2) hne
        rcases List.mem_cons.mp (hperm.symm.subset hrl) with heq | hr_tl
        · exact hne heq.symm
        · have := (List.pairwise_cons.mp hsorted).1 r hr_tl
          simp only [tsDescSensor, decide_eq_true_eq] at this
          omega
      simp [latestHandler, noFaults, LatestResp.sensorOf, hms, hhd]
  · intro comps hcomps
    simp only [latestHandler, noFaults, LatestResp.compartmentsOf,
      Bool.false_eq_true, if_false, Option.some.injEq] at hcomps
    obtain ⟨h1, h2, h3, h4⟩ := sortBy_take_comp
      (db.compartment_status.filter (fun c => c.box_id == boxId)) 4
    subst hcomps
    exact ⟨h1, h2,
      (sortBy tsDescComp (db.compartment_status.filter
        (fun c => c.box_id == boxId))).drop 4, h3, h4⟩

/-- Witness for C2: the newest box1 reading (timestamp 3) is returned,
and a box with no readings gets a null sensor. -/
theorem C2_state_query_witness :
    ((latestHandler dbC2 "box1" noFaults).resp).sensorOf
        = some (some ⟨"box1", 22, 40, 3⟩)
    ∧ ((latestHandler dbC2 "box9" noFaults).resp).sensorOf = some none :=
  ⟨(C2_state_query dbC2 "box1").2.1 ⟨"box1", 22, 40, 3⟩ (by decide) rfl
      (by decide),
   (C2_state_query dbC2 "box9").1 (by decide)⟩

/-- Claim C6: with a healthy store, the History Query Handler returns
exactly the box's readings strictly newer than 24 hours before the
query-time store clock, most-recent-first; in particular a reading
stamped now − 25h is absent and one stamped now − 1h is present. -/
theorem C6_history_window (db : DB) (boxId : String) (now : Int) :
    ∃ data, (historyHandler db boxId now noFaults).resp = .ok data
      ∧ (∀ r, r ∈ data ↔ r ∈ db.sensor_logs ∧ r.box_id = boxId
          ∧ now - 24 * hour < r.timestamp)
      ∧ data.Pairwise (fun a b => b.timestamp ≤ a.timestamp)
      ∧ (∀ r ∈ db.sensor_logs, r.box_id = boxId →
          r.timestamp = now - 25 * hour → r ∉ data)
      ∧ (∀ r ∈ db.sensor_logs, r.box_id = boxId →
          r.timestamp = now - hour → r ∈ data) := by
  refine ⟨_, rfl, ?_, ?_, ?_, ?_⟩
  · intro r
    simp [mem_sortBy, List.mem_filter, and_assoc]
  · exact (sortBy_pairwise tsDescSensor tsDescSensor_trans tsDescSensor_total _).imp
      (fun h => by simpa [tsDescSensor] using h)
  · intro r hr hbox hts hmem
    rw [mem_sortBy, List.mem_filter] at hmem
    obtain ⟨-, hp⟩ := hmem
    simp only [Bool.and_eq_true, beq_iff_eq, decide_eq_true_eq] at hp
    rw [hts] at hp
    simp only [hour] at hp
    omega
  · intro r hr hbox hts
    rw [mem_sortBy, List.mem_filter]
    refine ⟨hr, ?_⟩
    simp only [Bool.and_eq_true, beq_iff_eq, decide_eq_true_eq, hbox, true_and]
    rw [hts]
    simp only [hour]
    omega

/-- Witness for C6: the 25-hour-old reading is absent from the history,
the 1-hour-old one is present. -/
theorem C6_history_window_witness :
    ∃ data, (historyHandler dbC6 "box1" 100000 noFaults).resp = .ok data
      ∧ (⟨"box1", 20, 30, 10000⟩ : SensorRow) ∉ data
      ∧ (⟨"box1", 21, 31, 96400⟩ : SensorRow) ∈ data := by
  obtain ⟨data, h1, h2, h3, h4, h5⟩ := C6_history_window dbC6 "box1" 100000
  exact ⟨data, h1, h4 _ (by decide) rfl (by decide),
    h5 _ (by decide) rfl (by decide)⟩

/-- Claim C7: with a healthy store, the Schedule Query Handler returns
exactly the box's rows with `is_taken = 0`, ordered by scheduled time
ascending, with no condition on scheduled time relative to now (the
membership characterization mentions no clock), and never a row with
`is_taken = 1`. -/
theorem C7_schedule_query (db : DB) (boxId : String) :
    ∃ data, (scheduleHandler db boxId noFaults).resp = .ok data
      ∧ (∀ r, r ∈ data ↔ r ∈ db.medication_schedule ∧ r.box_id = boxId
          ∧ r.is_taken = 0)
      ∧ data.Pairwise (fun a b => a.scheduled_time ≤ b.scheduled_time)
      ∧ ∀ r ∈ data, r.is_taken ≠ 1 := by
  refine ⟨_, rfl, ?_, ?_, ?_⟩
  · intro r
    simp [mem_sortBy, List.mem_filter, and_assoc]
  · exact (sortBy_pairwise schedAsc schedAsc_trans schedAsc_total _).imp
      (fun h => by simpa [schedAsc] using h)
  · intro r hrm
    rw [mem_sortBy, List.mem_filter] at hrm
    obtain ⟨-, hp⟩ := hrm
    simp only [Bool.and_eq_true, beq_iff_eq] at hp
    omega

/-- Witness for C7: the taken row is excluded, an untaken overdue row
is included. -/
theorem C7_schedule_query_witness :
    ∃ data, (scheduleHandler dbC7 "box1" noFaults).resp = .ok data
      ∧ (⟨2, "box1", 40, 1, some 45⟩ : ScheduleRow) ∉ data
      ∧ (⟨3, "box1", 30, 0, none⟩ : ScheduleRow) ∈ data := by
  obtain ⟨data, h1, h2, h3, h4⟩ := C7_schedule_query dbC7 "box1"
  refine ⟨data, h1, fun hmem => absurd ((h2 _).mp hmem).2.2 (by decide), ?_⟩
  exact (h2 _).mpr ⟨by decide, rfl, rfl⟩

/-- Claim C10: the latest-state compartments list is just the four most
recent rows of the box regardless of compartment id: here it holds four
rows of compartment 1 (several rows of the same compartment) and no row
of compartment 2 even though compartment 2 has previously reported, so
it is not a latest-row-per-compartment view. -/
theorem C10_latest_not_per_compartment :
    ((latestHandler dbC10 "box1" noFaults).resp).compartmentsOf
        = some [⟨"box1", 1, 1, 50⟩, ⟨"box1", 1, 0, 40⟩,
                ⟨"box1", 1, 1, 30⟩, ⟨"box1", 1, 0, 20⟩]
    ∧ (∃ r ∈ dbC10.compartment_status, r.box_id = "box1"
        ∧ r.compartment_id = 2)
    ∧ (∀ r ∈ [(⟨"box1", 1, 1, 50⟩ : CompartmentRow), ⟨"box1", 1, 0, 40⟩,
        ⟨"box1", 1, 1, 30⟩, ⟨"box1", 1, 0, 20⟩], r.compartment_id = 1) := by
  exact ⟨by decide, ⟨⟨"box1", 2, 1, 10⟩, by decide, rfl, rfl⟩, by decide⟩

/-- Witness for C3: completing schedule entry 5 twice at times 70 and
80 succeeds both times and leaves the row taken with taken_time 80. -/
theorem C3_complete_idempotent_witness :
    (completeHandler (completeHandler dbC3 5 70 noFaults).db 5 80
        noFaults).resp = .ok
    ∧ (completeHandler (completeHandler dbC3 5 70 noFaults).db 5 80
        noFaults).db.medication_schedule = [⟨5, "box1", 10, 1, some 80⟩] := by
  refine ⟨(C3_complete_idempotent dbC3 5 70 80).2.1, ?_⟩
  rw [(C3_complete_idempotent dbC3 5 70 80).2.2.2.2]
  decide

/-- Witness for C4: a rejected connection acquisition acquires and
releases nothing. -/
theorem C4_release_on_every_path_witness :
    (sensorDataHandler ⟨[], [], []⟩ 1 ⟨"box1", 0, 0, .absent⟩
        ⟨true, fun _ => false⟩).released
      = (sensorDataHandler ⟨[], [], []⟩ 1 ⟨"box1", 0, 0, .absent⟩
        ⟨true, fun _ => false⟩).acquired
    ∧ (sensorDataHandler ⟨[], [], []⟩ 1 ⟨"box1", 0, 0, .absent⟩
        ⟨true, fun _ => false⟩).acquired = !true :=
  (C4_release_on_every_path ⟨[], [], []⟩ 1 ⟨"box1", 0, 0, .absent⟩ "box1" 0
    ⟨true, fun _ => false⟩).1

/-- Witness for C9: a non-boolean truthy isOpen (the string "open") is
stored as 1. -/
theorem C9_is_open_truthiness_witness :
    (sensorDataHandler ⟨[], [], []⟩ 9 ⟨"box1", 1, 2, .array [⟨4, .str "open"⟩]⟩
        noFaults).db.compartment_status = [⟨"box1", 4, 1, 9⟩] :=
  (C9_is_open_truthiness ⟨[], [], []⟩ 9 "box1" 1 2 4 (.str "open")).1

end Server
